import Mathlib

/-!
Shallow embedding of the product query & mutation service of the
e-commerce inventory API (NestJS + Prisma + Supabase storage).

Sources embedded:
  * `src/modules/products/products.service.ts` (create / findAll / findOne /
    update / remove / search / uploadImage / deleteImage)
  * `src/modules/products/dto/product-query.dto.ts` (class-validator
    decorators, enforced by the global `ValidationPipe` in the bootstrap)
  * `src/common/services/image-upload.service.ts` (`deleteProductImages`
    key-prefix deletion; the Supabase storage client itself is the external
    Blob Store collaborator and is represented by explicit outcome
    parameters `Except String _` / success flags at the call sites).

Conventions:
  * Prisma rows are Lean structures; the relational store and the storage
    bucket are an explicit `State` threaded through every operation.
  * Every operation returns `State × Except ApiError α`: a thrown
    `HttpException` is `Except.error`, and the returned `State` shows which
    writes had already happened when the exception was raised.
  * JS string truthiness (`if (s)thenskip-when-empty`) is modelled by
    `truthy`; JS `number` query params are `Int`, prices are `Rat`
    (`Math.ceil` on a quotient of integers is the exact rational ceiling
    in the ranges the store can hold).
-/

namespace Inventory

/-- A `Category` row (id and name are all the service reads). -/
structure Category where
  id : String
  name : String
deriving DecidableEq

/-- A `Product` row as stored by Prisma. -/
structure Product where
  id : String
  name : String
  description : Option String
  price : Rat
  stock : Nat
  categoryId : String
  userId : String
  imageUrl : Option String
  createdAt : Nat
deriving DecidableEq

/-- The relational store plus the Supabase storage bucket
(`blobs` is the set of stored object keys of the bucket). -/
structure State where
  categories : List Category
  products : List Product
  blobs : List String
deriving DecidableEq

/-- The `HttpException`s thrown by the service layer. -/
inductive ApiError where
  | notFound (msg : String)
  | forbidden (msg : String)
  | badRequest (msg : String)
deriving DecidableEq

/-- JS truthiness for an optional string: `undefined` and `""` are falsy. -/
def truthy : Option String → Option String
  | none => none
  | some s => if s = "" then none else some s

/-- `prisma.category.findUnique({ where: { id } })`. -/
def findCategory (cats : List Category) (cid : String) : Option Category :=
  cats.find? (fun c => c.id == cid)

/-- `prisma.product.findUnique({ where: { id } })`. -/
def findProduct (ps : List Product) (pid : String) : Option Product :=
  ps.find? (fun p => p.id == pid)

/-- Ordering used by `orderBy: \x7b name: 'asc' \x7d` on categories. -/
def catNameLe (a b : Category) : Prop := a.name ≤ b.name

instance : DecidableRel catNameLe := fun a b =>
  if h : a.name ≤ b.name then isTrue h else isFalse h

instance : IsTotal Category catNameLe := ⟨fun a b => le_total a.name b.name⟩

instance : IsTrans Category catNameLe := ⟨fun _ _ _ => le_trans⟩

/-- Ordering used by `orderBy: \x7b createdAt: 'desc' \x7d` on products. -/
def createdDesc (a b : Product) : Prop := b.createdAt ≤ a.createdAt

instance : DecidableRel createdDesc := fun a b =>
  if h : b.createdAt ≤ a.createdAt then isTrue h else isFalse h

instance : IsTotal Product createdDesc := ⟨fun a b => le_total b.createdAt a.createdAt⟩

instance : IsTrans Product createdDesc := ⟨fun _ _ _ hab hbc => le_trans hbc hab⟩

/-- `findMany({ select: id/name, orderBy: \x7b name: 'asc' \x7d })` over all categories. -/
def availableCategories (cats : List Category) : List Category :=
  List.insertionSort catNameLe cats

/-- Products ordered by creation time, most recent first. -/
def orderByCreatedDesc (ps : List Product) : List Product :=
  List.insertionSort createdDesc ps

/-- `availableCategories.map(cat => cat.id + ": " + cat.name).join(', ')`. -/
def categoryListString (cats : List Category) : String :=
  String.intercalate ", " (cats.map (fun c => c.id ++ ": " ++ c.name))

/-- The `NotFoundException` message of `create` for a missing category
(`products.service.ts` lines 37-57). -/
def categoryNotFoundMessage (cats : List Category) (cid : String) : String :=
  let available := availableCategories cats
  if available.length = 0 then
    "Category with ID " ++ cid ++ " not found. No categories exist yet. Please create a category first using POST /api/categories before creating products."
  else
    "Category with ID " ++ cid ++ " not found. Available categories: " ++
      categoryListString available ++
      ". Please create a category first using POST /api/categories before creating products."

/-- Substring test on character lists (needle, then haystack). -/
def isSubChars (needle : List Char) : List Char → Bool
  | [] => needle.isPrefixOf []
  | c :: rest => needle.isPrefixOf (c :: rest) || isSubChars needle rest

/-- Character-wise lowercasing (what `String.toLower` computes). -/
def lowerChars (s : String) : List Char :=
  s.data.map Char.toLower

/-- Prisma `contains` with `mode: 'insensitive'`: case-insensitive substring. -/
def ciContains (hay term : String) : Bool :=
  isSubChars (lowerChars term) (lowerChars hay)

/-- The `OR: [name contains, description contains]` filter of
`findAll`/`search`; a `null` description matches no `contains` clause. -/
def matchesText (term : String) (p : Product) : Bool :=
  ciContains p.name term ||
    (match p.description with
     | some d => ciContains d term
     | none => false)

/-- Raw query parameters of `GET /api/products` (`ProductQueryDto`). -/
structure ProductQueryDto where
  categoryId : Option String
  minPrice : Option Rat
  maxPrice : Option Rat
  search : Option String
  page : Option Int
  limit : Option Int
deriving DecidableEq

/-- The class-validator decorators of `ProductQueryDto`
(`@Min(0)` on prices, `@Min(1)` on page, `@Min(1) @Max(100)` on limit),
enforced by the global `ValidationPipe`: a request failing any of them is
rejected with a 400 response before reaching `findAll`. -/
def validateProductQuery (q : ProductQueryDto) : Bool :=
  (match q.minPrice with | none => true | some m => decide (0 ≤ m)) &&
  (match q.maxPrice with | none => true | some m => decide (0 ≤ m)) &&
  (match q.page with | none => true | some p => decide (1 ≤ p)) &&
  (match q.limit with | none => true | some l => decide (1 ≤ l) && decide (l ≤ 100))

/-- `if (categoryId) where.categoryId = categoryId` of `findAll`. -/
def categoryFilter (c : Option String) (p : Product) : Bool :=
  match truthy c with
  | none => true
  | some cid => p.categoryId == cid

/-- The `where.price = \x7b gte?, lte? \x7d` clause of `findAll`. -/
def priceFilter (minP maxP : Option Rat) (price : Rat) : Bool :=
  if minP.isSome || maxP.isSome then
    (match minP with | some m => decide (m ≤ price) | none => true) &&
    (match maxP with | some m => decide (price ≤ m) | none => true)
  else true

/-- `if (search) where.OR = [...]` of `findAll`: the term is used verbatim
(no trimming); only `undefined` and the empty string skip the filter. -/
def searchFilter (s : Option String) (p : Product) : Bool :=
  match truthy s with
  | none => true
  | some term => matchesText term p

/-- The complete `where` clause built by `findAll`. -/
def whereMatches (q : ProductQueryDto) (p : Product) : Bool :=
  categoryFilter q.categoryId p &&
    priceFilter q.minPrice q.maxPrice p.price &&
    searchFilter q.search p

/-- Return shape of `findAll`. -/
structure FindAllResult where
  products : List Product
  total : Nat
  page : Int
  limit : Int
  totalPages : Int
  message : Option String
deriving DecidableEq

/-- `findAll` (`products.service.ts` lines 116-201): destructure with
defaults `page = 1`, `limit = 10`, compute `skip = (page - 1) * limit`,
run `findMany` with the built `where`, `skip`, `take`, ordered by
`createdAt` descending, `count` with the same `where`, and report
`totalPages = Math.ceil(total / limit)`. -/
def findAll (st : State) (q : ProductQueryDto) : FindAllResult :=
  let page := q.page.getD 1
  let limit := q.limit.getD 10
  let skip := (page - 1) * limit
  let matching := (orderByCreatedDesc st.products).filter (whereMatches q)
  let products := (matching.drop skip.toNat).take limit.toNat
  let total := matching.length
  { products := products
    total := total
    page := page
    limit := limit
    totalPages := ⌈(total : Rat) / (limit : Rat)⌉
    message := if products.length = 0 then some "No products found" else none }

/-- `search` (`products.service.ts` lines 285-320): the raw term is always
applied as the `OR` contains-filter, with no trimming and no emptiness
check. -/
def search (st : State) (searchTerm : String) : List Product × Option String :=
  let products := (orderByCreatedDesc st.products).filter (matchesText searchTerm)
  (products,
   if products.length = 0 then some "No products found matching your search" else none)

/-- Body of `POST /api/products` (`CreateProductDto`). -/
structure CreateProductDto where
  name : String
  description : Option String
  price : Rat
  stock : Nat
  categoryId : String
  imageUrl : Option String
deriving DecidableEq

/-- Return shape of `create`. -/
structure CreateResult where
  product : Product
  imageUrl : Option String
  message : String
deriving DecidableEq

/-- `prisma.product.update({ where: \x7b id \x7d, data: \x7b imageUrl \x7d })`. -/
def setProductImage (ps : List Product) (pid : String) (url : Option String) :
    List Product :=
  ps.map (fun p => if p.id == pid then { p with imageUrl := url } else p)

/-- `create` (`products.service.ts` lines 21-114).

`uploadOutcome` is the outcome of the `imageUploadService.uploadImage`
call (the Blob Store collaborator): `Except.ok url` is the public URL it
returns, `Except.error e` the message of the exception it throws; it is
only consulted when a multipart `file` is present.  `newId`/`now` stand
for the id and `createdAt` the store assigns to the inserted row. -/
def create (st : State) (dto : CreateProductDto) (file : Option Unit)
    (userId : String) (newId : String) (now : Nat)
    (uploadOutcome : Except String String) :
    State × Except ApiError CreateResult :=
  match findCategory st.categories dto.categoryId with
  | none =>
    (st, Except.error (ApiError.notFound
      (categoryNotFoundMessage st.categories dto.categoryId)))
  | some _ =>
    let product : Product :=
      { id := newId
        name := dto.name
        description := dto.description
        price := dto.price
        stock := dto.stock
        categoryId := dto.categoryId
        userId := userId
        imageUrl := dto.imageUrl
        createdAt := now }
    let st1 : State := { st with products := st.products ++ [product] }
    match file with
    | none =>
      (st1, Except.ok
        { product := product
          imageUrl := dto.imageUrl
          message := "Product created successfully" })
    | some _ =>
      match uploadOutcome with
      | Except.ok url =>
        (({ st1 with products := setProductImage st1.products newId (some url) }),
         Except.ok
           { product := { product with imageUrl := some url }
             imageUrl := some url
             message := "Product created successfully with image uploaded to Supabase Storage" })
      | Except.error _ =>
        -- upload failure is caught: the row inserted above is kept as-is
        (st1, Except.ok
          { product := product
            imageUrl := dto.imageUrl
            message := "Product created successfully, but image upload failed" })

/-- `findOne` (`products.service.ts` lines 203-227). -/
def findOne (ps : List Product) (id : String) : Except ApiError Product :=
  match findProduct ps id with
  | none => Except.error (ApiError.notFound ("Product with ID " ++ id ++ " not found"))
  | some p => Except.ok p

/-- Body of `PATCH /api/products/:id` (`UpdateProductDto`, a partial
`CreateProductDto`: absent fields are left untouched by `prisma.update`). -/
structure UpdateProductDto where
  name : Option String
  description : Option String
  price : Option Rat
  stock : Option Nat
  categoryId : Option String
  imageUrl : Option String
deriving DecidableEq

/-- `prisma.product.update({ where: \x7b id \x7d, data: updateProductDto })`:
every field present in the dto overwrites the row's field. -/
def applyUpdate (dto : UpdateProductDto) (p : Product) : Product :=
  { p with
    name := dto.name.getD p.name
    description := match dto.description with | some d => some d | none => p.description
    price := dto.price.getD p.price
    stock := dto.stock.getD p.stock
    categoryId := dto.categoryId.getD p.categoryId
    imageUrl := match dto.imageUrl with | some u => some u | none => p.imageUrl }

/-- `update` (`products.service.ts` lines 229-257): `findOne`, ownership
check, category re-validation when `updateProductDto.categoryId` is
truthy, then the partial update. -/
def update (st : State) (id : String) (dto : UpdateProductDto) (userId : String) :
    State × Except ApiError Product :=
  match findOne st.products id with
  | Except.error e => (st, Except.error e)
  | Except.ok product =>
    if product.userId ≠ userId then
      (st, Except.error (ApiError.forbidden "You can only update your own products"))
    else
      let categoryCheck : Except ApiError Unit :=
        match truthy dto.categoryId with
        | none => Except.ok ()
        | some cid =>
          match findCategory st.categories cid with
          | some _ => Except.ok ()
          | none => Except.error (ApiError.notFound
              ("Category with ID " ++ cid ++ " not found"))
      match categoryCheck with
      | Except.error e => (st, Except.error e)
      | Except.ok _ =>
        ({ st with products :=
             st.products.map (fun p => if p.id == id then applyUpdate dto p else p) },
         Except.ok (applyUpdate dto product))

/-- Storage folder of a product's images: `productId + "/" + userId + "/"`
(`image-upload.service.ts` stores under `productId/userId/uuid.ext`). -/
def imageFolder (pid uid : String) : String := pid ++ "/" ++ uid ++ "/"

/-- Effect of `imageUploadService.deleteProductImages(productId, userId)`
on the bucket when it succeeds: every key listed under the
`productId/userId` folder is removed. -/
def deleteProductImages (blobs : List String) (pid uid : String) : List String :=
  blobs.filter (fun k => !(String.isPrefixOf (imageFolder pid uid) k))

/-- `remove` (`products.service.ts` lines 259-283): `findOne`, ownership
check, best-effort image cleanup when the row has a truthy `imageUrl`
(a failure of `deleteProductImages` — `blobOutcome = Except.error _` — is
logged and swallowed), then `prisma.product.delete`. -/
def remove (st : State) (id : String) (userId : String)
    (blobOutcome : Except String Unit) : State × Except ApiError Unit :=
  match findOne st.products id with
  | Except.error e => (st, Except.error e)
  | Except.ok product =>
    if product.userId ≠ userId then
      (st, Except.error (ApiError.forbidden "You can only delete your own products"))
    else
      let st1 : State :=
        match truthy product.imageUrl with
        | some _ =>
          match blobOutcome with
          | Except.ok _ => { st with blobs := deleteProductImages st.blobs id userId }
          | Except.error _ => st
        | none => st
      ({ st1 with products := st1.products.filter (fun p => !(p.id == id)) },
       Except.ok ())

/-- Return shape of `uploadImage`. -/
structure UploadImageResult where
  message : String
  imageUrl : String
  product : Product
deriving DecidableEq

/-- `uploadImage` (`products.service.ts` lines 322-356): `findOne`,
ownership check, then the Blob Store upload — whose failure here is NOT
caught and propagates as the thrown `BadRequestException` — and the row
update with the returned URL. -/
def uploadImage (st : State) (productId : String) (userId : String)
    (uploadOutcome : Except String String) :
    State × Except ApiError UploadImageResult :=
  match findOne st.products productId with
  | Except.error e => (st, Except.error e)
  | Except.ok product =>
    if product.userId ≠ userId then
      (st, Except.error (ApiError.forbidden "You can only upload images to your own products"))
    else
      match uploadOutcome with
      | Except.error e => (st, Except.error (ApiError.badRequest e))
      | Except.ok url =>
        ({ st with products := setProductImage st.products productId (some url) },
         Except.ok
           { message := "Image uploaded successfully to Supabase Storage"
             imageUrl := url
             product := { product with imageUrl := some url } })

/-- `deleteImage` (`products.service.ts` lines 358-389): `findOne`,
ownership check, `BadRequestException` when the row has no truthy
`imageUrl`; otherwise `deleteProductImages` (whose failure propagates —
nothing is caught here) and then the row update clearing `imageUrl`. -/
def deleteImage (st : State) (productId : String) (userId : String)
    (blobOutcome : Except String Unit) : State × Except ApiError String :=
  match findOne st.products productId with
  | Except.error e => (st, Except.error e)
  | Except.ok product =>
    if product.userId ≠ userId then
      (st, Except.error (ApiError.forbidden "You can only delete images from your own products"))
    else
      match truthy product.imageUrl with
      | none => (st, Except.error (ApiError.badRequest "Product has no image to delete"))
      | some _ =>
        match blobOutcome with
        | Except.error e => (st, Except.error (ApiError.badRequest e))
        | Except.ok _ =>
          ({ st with
               blobs := deleteProductImages st.blobs productId userId
               products := setProductImage st.products productId none },
           Except.ok "Image deleted successfully")

/-- Spec-side notion: `term` occurs in `s` as a case-insensitive substring
(stated with Mathlib's `List.IsInfix`, independently of the executable
`isSubChars` recursion). -/
def CiSubstr (term s : String) : Prop :=
  lowerChars term <:+: lowerChars s

/-- Result discriminators used by the claims about error classes. -/
def isNotFound {α : Type} : Except ApiError α → Bool
  | Except.error (ApiError.notFound _) => true
  | _ => false

/-- `Except.error (ApiError.forbidden _)` discriminator. -/
def isForbidden {α : Type} : Except ApiError α → Bool
  | Except.error (ApiError.forbidden _) => true
  | _ => false

/-- `Except.error (ApiError.badRequest _)` discriminator. -/
def isBadRequest {α : Type} : Except ApiError α → Bool
  | Except.error (ApiError.badRequest _) => true
  | _ => false

/-! Concrete sample data used by witnesses and counterexamples. -/

/-- Sample category. -/
def catElectronics : Category := { id := "c1", name := "Electronics" }

/-- Sample category (name sorts before `Electronics`). -/
def catBooks : Category := { id := "c2", name := "Books" }

/-- Sample product without an image, owned by `alice`. -/
def phone : Product :=
  { id := "p1", name := "Phone", description := none, price := 200, stock := 5,
    categoryId := "c1", userId := "alice", imageUrl := none, createdAt := 3 }

/-- Sample product with an image, owned by `alice`. -/
def camera : Product :=
  { id := "p2", name := "Camera", description := some "A nice DSLR", price := 300,
    stock := 2, categoryId := "c2", userId := "alice",
    imageUrl := some "https://blob/p2/alice/a.png", createdAt := 7 }

/-- Sample state: two categories, two products, two stored blobs. -/
def stA : State :=
  { categories := [catElectronics, catBooks]
    products := [phone, camera]
    blobs := ["p2/alice/a.png", "p9/bob/z.png"] }

/-- Query with every parameter absent. -/
def emptyQuery : ProductQueryDto :=
  { categoryId := none, minPrice := none, maxPrice := none,
    search := none, page := none, limit := none }

/-- Update dto with every field absent. -/
def emptyUpdate : UpdateProductDto :=
  { name := none, description := none, price := none,
    stock := none, categoryId := none, imageUrl := none }

/-- Create dto naming an existing category and a literal image URL. -/
def dtoPhone : CreateProductDto :=
  { name := "Phone X", description := none, price := 250, stock := 4,
    categoryId := "c1", imageUrl := some "https://literal/url.png" }

/-- Create dto referencing a category id that does not exist. -/
def dtoBad : CreateProductDto :=
  { name := "Phone X", description := none, price := 250, stock := 4,
    categoryId := "nope", imageUrl := none }

/-! General lemmas about the embedded operations. -/

/-- The executable substring test agrees with `List.IsInfix`. -/
theorem isSubChars_iff (n : List Char) :
    ∀ h : List Char, isSubChars n h = true ↔ n <:+: h
  | [] => by
    simp [isSubChars]
  | c :: rest => by
    simp [isSubChars, List.infix_cons_iff, isSubChars_iff n rest]

/-- `ciContains` agrees with the spec-side `CiSubstr`. -/
theorem ciContains_iff (hay term : String) :
    ciContains hay term = true ↔ CiSubstr term hay :=
  isSubChars_iff (lowerChars term) (lowerChars hay)

/-- Looking up a freshly appended row finds it. -/
theorem findProduct_append_singleton (ps : List Product) (p : Product) (pid : String)
    (hnone : findProduct ps pid = none) (hid : p.id = pid) :
    findProduct (ps ++ [p]) pid = some p := by
  unfold findProduct at hnone ⊢
  rw [List.find?_append, hnone]
  simp [List.find?_cons, hid]

/-- Lookup after `setProductImage` returns the looked-up row with the new URL. -/
theorem findProduct_setProductImage (ps : List Product) (pid : String)
    (url : Option String) :
    findProduct (setProductImage ps pid url) pid
      = (findProduct ps pid).map (fun p => { p with imageUrl := url }) := by
  induction ps with
  | nil => rfl
  | cons a l ih =>
    by_cases h : a.id = pid
    · simp [setProductImage, findProduct, List.find?_cons, h]
    · have hb : (a.id == pid) = false := by simp [h]
      simp only [setProductImage, findProduct, List.map_cons, List.find?_cons, hb,
        if_false] at ih ⊢
      simpa [hb] using ih

/-- After filtering out the row with a given id, lookup of that id fails. -/
theorem findProduct_filter_out (ps : List Product) (pid : String) :
    findProduct (ps.filter (fun p => !(p.id == pid))) pid = none := by
  unfold findProduct
  rw [List.find?_eq_none]
  intro x hx
  rcases List.mem_filter.mp hx with ⟨-, hkeep⟩
  simpa using hkeep

/-- Sorting does not change which rows match a filter, nor how many. -/
theorem length_filter_orderByCreatedDesc (ps : List Product) (w : Product → Bool) :
    ((orderByCreatedDesc ps).filter w).length = (ps.filter w).length :=
  ((List.perm_insertionSort createdDesc ps).filter w).length_eq

/-- Membership in the creation-time ordering is membership in the store. -/
theorem mem_orderByCreatedDesc (ps : List Product) (p : Product) :
    p ∈ orderByCreatedDesc ps ↔ p ∈ ps :=
  List.mem_insertionSort createdDesc

/-- The `OR` contains-filter holds exactly when the term occurs
case-insensitively in the name or in a present description. -/
theorem matchesText_iff (t : String) (p : Product) :
    matchesText t p = true ↔
      CiSubstr t p.name ∨ ∃ d, p.description = some d ∧ CiSubstr t d := by
  unfold matchesText
  cases hd : p.description with
  | none => simp [ciContains_iff]
  | some d => simp [ciContains_iff]

/-- `Math.ceil` of a quotient of naturals, computed exactly: for a positive
divisor the rational ceiling is `(t + l - 1) / l` in natural division. -/
theorem ceil_ratCast_div (t l : Nat) (hl : 1 ≤ l) :
    ⌈(t : Rat) / (l : Rat)⌉ = ((t + l - 1) / l : Nat) := by
  have hl0 : (0 : Rat) < (l : Rat) := by exact_mod_cast hl
  have h1 : ((t + l - 1) / l) * l ≤ t + l - 1 := Nat.div_mul_le_self _ _
  have h2 : t + l - 1 < ((t + l - 1) / l) * l + l := by
    have := (Nat.div_lt_iff_lt_mul (show 0 < l by omega)).mp
      (Nat.lt_succ_self ((t + l - 1) / l))
    calc t + l - 1 < ((t + l - 1) / l + 1) * l := this
    _ = ((t + l - 1) / l) * l + l := by rw [Nat.succ_mul]
  set z : Nat := (t + l - 1) / l with hz
  have ha : z * l < t + l := by omega
  have hb : t ≤ z * l := by omega
  rw [Int.ceil_eq_iff]
  constructor
  · rw [lt_div_iff₀ hl0]
    have ha2 : (z : Rat) * l < (t : Rat) + l := by exact_mod_cast ha
    push_cast
    linarith
  · rw [div_le_iff₀ hl0]
    have hb2 : (t : Rat) ≤ (z : Rat) * l := by exact_mod_cast hb
    push_cast
    linarith

/-! Claim theorems. -/

/-- C1: when `create` is called with both a literal image URL and an image
file, a successful blob upload makes the Blob Store's returned public URL
the stored (and reported) image URL — the file takes precedence over the
literal URL — while a failed upload still leaves `create` succeeding, with
the already-inserted row kept under the originally-supplied literal URL
and a message saying the image upload failed but the product was
created. -/
theorem create_file_precedence_and_failure_isolation
    (st : State) (dto : CreateProductDto) (uid newId : String) (now : Nat)
    (upl : Except String String) (u0 : String)
    (hcat : (findCategory st.categories dto.categoryId).isSome = true)
    (himg : dto.imageUrl = some u0)
    (hfresh : findProduct st.products newId = none) :
    (∀ url, upl = Except.ok url →
      ∃ res, (create st dto (some ()) uid newId now upl).2 = Except.ok res ∧
        res.product.imageUrl = some url ∧
        res.imageUrl = some url ∧
        findProduct (create st dto (some ()) uid newId now upl).1.products newId
          = some res.product) ∧
    (∀ e, upl = Except.error e →
      ∃ res, (create st dto (some ()) uid newId now upl).2 = Except.ok res ∧
        res.product.imageUrl = some u0 ∧
        res.message = "Product created successfully, but image upload failed" ∧
        findProduct (create st dto (some ()) uid newId now upl).1.products newId
          = some res.product) := by
  rcases hcc : findCategory st.categories dto.categoryId with - | c
  · rw [hcc] at hcat
    simp at hcat
  constructor
  · intro url hupl
    subst hupl
    unfold create
    rw [hcc]
    refine ⟨_, rfl, rfl, rfl, ?_⟩
    rw [findProduct_setProductImage,
      findProduct_append_singleton st.products _ newId hfresh rfl]
    rfl
  · intro e hupl
    subst hupl
    unfold create
    rw [hcc]
    refine ⟨_, rfl, ?_, rfl, ?_⟩
    · exact himg
    · rw [findProduct_append_singleton st.products _ newId hfresh rfl]

/-- C2: `create` with an unresolvable category reference fails with
`NotFound` leaving the state unchanged (no row inserted); the message is
the no-categories-exist text when the system has no category at all and
otherwise enumerates every category as `"<id>: <name>"` joined by `", "`
over the name-ascending ordering of all existing categories. -/
theorem create_missing_category_error_message
    (st : State) (dto : CreateProductDto) (file : Option Unit) (uid newId : String)
    (now : Nat) (upl : Except String String)
    (hcat : findCategory st.categories dto.categoryId = none) :
    create st dto file uid newId now upl
      = (st, Except.error (ApiError.notFound
          (categoryNotFoundMessage st.categories dto.categoryId))) ∧
    (st.categories = [] →
      categoryNotFoundMessage st.categories dto.categoryId =
        "Category with ID " ++ dto.categoryId ++
          " not found. No categories exist yet. Please create a category first using POST /api/categories before creating products.") ∧
    (st.categories ≠ [] →
      categoryNotFoundMessage st.categories dto.categoryId =
        "Category with ID " ++ dto.categoryId ++ " not found. Available categories: " ++
          categoryListString (availableCategories st.categories) ++
          ". Please create a category first using POST /api/categories before creating products.") ∧
    List.Sorted catNameLe (availableCategories st.categories) ∧
    (availableCategories st.categories).Perm st.categories := by
  refine ⟨by simp [create, hcat], ?_, ?_, ?_, ?_⟩
  · intro h
    rw [h]
    rfl
  · intro h
    have hlen : (availableCategories st.categories).length ≠ 0 := by
      unfold availableCategories
      rw [List.length_insertionSort]
      simpa [List.length_eq_zero] using h
    unfold categoryNotFoundMessage
    rw [if_neg hlen]
  · exact List.sorted_insertionSort catNameLe st.categories
  · exact List.perm_insertionSort catNameLe st.categories

/-- C3 (counterexample): the validation layer on `ProductQueryDto` does
not clamp out-of-range pagination values — it rejects them.  A query with
`page = 0` fails validation (so the request errors with a 400 response
instead of being treated as page 1), and likewise `limit = 200` fails
validation instead of being clamped to 100. -/
theorem pagination_out_of_range_rejected_not_clamped :
    validateProductQuery { emptyQuery with page := some 0 } = false ∧
    validateProductQuery { emptyQuery with limit := some 200 } = false :=
  ⟨rfl, rfl⟩

/-- C3 (amended): page and limit default to 1 and 10 when absent; values
out of range (page < 1, limit outside [1, 100]) are rejected by the
validation layer with an error rather than clamped; every query that
passes validation reaches `findAll` with an effective page ≥ 1 and an
effective limit in [1, 100]. -/
theorem findAll_pagination_defaults_and_bounds
    (st : State) (q : ProductQueryDto)
    (h : validateProductQuery q = true) :
    1 ≤ (findAll st q).page ∧
    1 ≤ (findAll st q).limit ∧ (findAll st q).limit ≤ 100 ∧
    (q.page = none → (findAll st q).page = 1) ∧
    (q.limit = none → (findAll st q).limit = 10) := by
  have hpage : (findAll st q).page = q.page.getD 1 := rfl
  have hlimit : (findAll st q).limit = q.limit.getD 10 := rfl
  unfold validateProductQuery at h
  simp only [Bool.and_eq_true] at h
  obtain ⟨⟨⟨-, -⟩, hp⟩, hl⟩ := h
  refine ⟨?_, ?_, ?_, ?_, ?_⟩
  · rw [hpage]
    cases hq : q.page with
    | none => simp
    | some p =>
      rw [hq] at hp
      simpa using hp
  · rw [hlimit]
    cases hq : q.limit with
    | none => simp
    | some l =>
      rw [hq] at hl
      simp only [Bool.and_eq_true, decide_eq_true_eq] at hl
      simpa using hl.1
  · rw [hlimit]
    cases hq : q.limit with
    | none => simp
    | some l =>
      rw [hq] at hl
      simp only [Bool.and_eq_true, decide_eq_true_eq] at hl
      simpa using hl.2
  · intro hq
    rw [hpage, hq]
    rfl
  · intro hq
    rw [hlimit, hq]
    rfl

/-- C4: every mutating operation called by a non-owner on an existing
product fails with `Forbidden` (with the operation-specific message) and
returns the state unchanged — no field of any stored row is modified. -/
theorem nonowner_mutations_forbidden_and_unmodified
    (st : State) (id uid : String) (dto : UpdateProductDto)
    (upl : Except String String) (blob : Except String Unit) (p : Product)
    (hp : findProduct st.products id = some p) (hne : p.userId ≠ uid) :
    update st id dto uid
      = (st, Except.error (ApiError.forbidden "You can only update your own products")) ∧
    remove st id uid blob
      = (st, Except.error (ApiError.forbidden "You can only delete your own products")) ∧
    uploadImage st id uid upl
      = (st, Except.error (ApiError.forbidden "You can only upload images to your own products")) ∧
    deleteImage st id uid blob
      = (st, Except.error (ApiError.forbidden "You can only delete images from your own products")) := by
  refine ⟨?_, ?_, ?_, ?_⟩ <;>
    simp [update, remove, uploadImage, deleteImage, findOne, hp, hne]

/-- C5: the price clause of the list predicate holds exactly when the row's
price is ≥ the given lower bound and ≤ the given upper bound, both bounds
inclusive (a price exactly at either bound matches), and a query with an
inverted range (min > max) produces an empty result set with total 0
rather than an error. -/
theorem price_bounds_inclusive_and_inverted_range_empty
    (st : State) (q : ProductQueryDto) (minP maxP : Option Rat) (pr : Rat) :
    (priceFilter minP maxP pr = true ↔
      (∀ m, minP = some m → m ≤ pr) ∧ (∀ m, maxP = some m → pr ≤ m)) ∧
    (∀ m mx : Rat, m ≤ mx →
      priceFilter (some m) (some mx) m = true ∧
      priceFilter (some m) (some mx) mx = true) ∧
    (∀ m mx : Rat, q.minPrice = some m → q.maxPrice = some mx → mx < m →
      (findAll st q).products = [] ∧ (findAll st q).total = 0) := by
  refine ⟨?_, ?_, ?_⟩
  · cases minP <;> cases maxP <;> simp [priceFilter]
  · intro m mx hle
    constructor <;> simp [priceFilter, hle]
  · intro m mx hm hmx hlt
    have hpf : ∀ p : Product, whereMatches q p = false := by
      intro p
      have hfalse : priceFilter q.minPrice q.maxPrice p.price = false := by
        rw [hm, hmx]
        by_cases h1 : m ≤ p.price
        · have h2 : ¬ p.price ≤ mx := by linarith
          simp [priceFilter, h1, h2]
        · simp [priceFilter, h1]
      simp [whereMatches, hfalse]
    have hnil : (orderByCreatedDesc st.products).filter (whereMatches q) = [] := by
      rw [List.filter_eq_nil_iff]
      intro a ha
      simp [hpf a]
    have hprod : (findAll st q).products
        = (((orderByCreatedDesc st.products).filter (whereMatches q)).drop
            (((q.page.getD 1 - 1) * q.limit.getD 10).toNat)).take
            ((q.limit.getD 10).toNat) := rfl
    have htot : (findAll st q).total
        = ((orderByCreatedDesc st.products).filter (whereMatches q)).length := rfl
    rw [hprod, htot, hnil]
    simp

/-- C6: for every query passing validation, `total` counts all rows
matching the predicate ignoring pagination, `totalPages` is the ceiling of
`total / limit` (also given in closed natural-division form), and the
returned page holds at most `limit` products. -/
theorem findAll_totalPages_and_page_size
    (st : State) (q : ProductQueryDto)
    (h : validateProductQuery q = true) :
    (findAll st q).total = (st.products.filter (whereMatches q)).length ∧
    (findAll st q).totalPages
      = ⌈((findAll st q).total : Rat) / ((findAll st q).limit : Rat)⌉ ∧
    (findAll st q).totalPages
      = (((findAll st q).total + (findAll st q).limit.toNat - 1)
          / (findAll st q).limit.toNat : Nat) ∧
    (findAll st q).products.length ≤ (findAll st q).limit.toNat := by
  have hlim : (findAll st q).limit = q.limit.getD 10 := rfl
  have hl1 : 1 ≤ q.limit.getD 10 := by
    unfold validateProductQuery at h
    simp only [Bool.and_eq_true] at h
    cases hq : q.limit with
    | none => simp
    | some l =>
      rw [hq] at h
      simp only [Bool.and_eq_true, decide_eq_true_eq] at h
      simpa using h.2.1
  have htot : (findAll st q).total
      = ((orderByCreatedDesc st.products).filter (whereMatches q)).length := rfl
  have hcnt : (findAll st q).total = (st.products.filter (whereMatches q)).length := by
    rw [htot, length_filter_orderByCreatedDesc]
  have hlnat : ((q.limit.getD 10).toNat : Int) = q.limit.getD 10 :=
    Int.toNat_of_nonneg (by omega)
  have hlnat1 : 1 ≤ (q.limit.getD 10).toNat := by omega
  refine ⟨hcnt, ?_, ?_, ?_⟩
  · rfl
  · have hdef : (findAll st q).totalPages
        = ⌈((findAll st q).total : Rat) / ((q.limit.getD 10 : Int) : Rat)⌉ := rfl
    rw [hdef, hlim, ← hlnat]
    push_cast
    exact ceil_ratCast_div (findAll st q).total (q.limit.getD 10).toNat hlnat1
  · have hprod : (findAll st q).products
        = (((orderByCreatedDesc st.products).filter (whereMatches q)).drop
            (((q.page.getD 1 - 1) * q.limit.getD 10).toNat)).take
            ((q.limit.getD 10).toNat) := rfl
    rw [hprod, hlim]
    rw [List.length_take]
    exact Nat.min_le_left _ _

/-- C7 (counterexample): a whitespace-only search term trims to the empty
string, yet the code applies it as a filter: the term `" "` is truthy in
JS, so `findAll` adds the `OR` contains-clause for it, and the product
named `"Phone"` (with no description) is filtered out — while with no term
at all the same product passes the text filter. -/
theorem whitespace_search_term_is_still_filtered :
    " ".data.all Char.isWhitespace = true ∧
    searchFilter (some " ") phone = false ∧
    searchFilter none phone = true ∧
    (findAll stA { emptyQuery with search := some " " }).products = [camera] := by
  refine ⟨by decide, by decide, rfl, by decide⟩

/-- C7 (amended): in `findAll` an absent or empty-string term applies no
text filter, but the term is never trimmed: any non-empty term — even a
whitespace-only one — is applied verbatim as the case-insensitive
substring filter on name OR description.  The `search` endpoint always
applies the raw term; its rows are exactly the stored rows matching the
contains-filter, and an empty term matches every row (every name contains
the empty string). -/
theorem text_filter_truthiness_and_ci_substring :
    (∀ p : Product, searchFilter none p = true ∧ searchFilter (some "") p = true) ∧
    (∀ (t : String) (p : Product), t ≠ "" →
      (searchFilter (some t) p = true ↔
        CiSubstr t p.name ∨ ∃ d, p.description = some d ∧ CiSubstr t d)) ∧
    (∀ (st : State) (t : String) (p : Product),
      p ∈ (search st t).1 ↔ p ∈ st.products ∧ matchesText t p = true) ∧
    (∀ (t : String) (p : Product),
      matchesText t p = true ↔
        CiSubstr t p.name ∨ ∃ d, p.description = some d ∧ CiSubstr t d) ∧
    (∀ p : Product, matchesText "" p = true) := by
  refine ⟨?_, ?_, ?_, ?_, ?_⟩
  · intro p
    constructor <;> rfl
  · intro t p ht
    have htruthy : truthy (some t) = some t := by
      simp [truthy, ht]
    have hs : searchFilter (some t) p = matchesText t p := by
      unfold searchFilter
      rw [htruthy]
    rw [hs]
    exact matchesText_iff t p
  · intro st t p
    unfold search
    simp [List.mem_filter, mem_orderByCreatedDesc]
  · exact matchesText_iff
  · intro p
    unfold matchesText
    rw [Bool.or_eq_true]
    left
    rw [ciContains_iff]
    exact List.nil_infix

/-- C8: removal by the owner of a product that has an image never surfaces
a Blob Store failure: the call succeeds and the row is deleted whether the
blob cleanup succeeds (then the stored keys under the product+owner folder
are gone) or fails (then the bucket is simply left as it was — the error
is swallowed and does not block the row deletion). -/
theorem remove_swallows_blob_failure
    (st : State) (id uid : String) (p : Product) (blob : Except String Unit)
    (hp : findProduct st.products id = some p) (hown : p.userId = uid)
    (himg : (truthy p.imageUrl).isSome = true) :
    (remove st id uid blob).2 = Except.ok () ∧
    findProduct (remove st id uid blob).1.products id = none ∧
    (∀ e, blob = Except.error e → (remove st id uid blob).1.blobs = st.blobs) ∧
    (blob = Except.ok () →
      (remove st id uid blob).1.blobs = deleteProductImages st.blobs id uid) := by
  obtain ⟨u, hu⟩ := Option.isSome_iff_exists.mp himg
  have hne : ¬ p.userId ≠ uid := by simp [hown]
  cases blob with
  | ok a =>
    have hred : remove st id uid (Except.ok a)
        = ({ st with blobs := deleteProductImages st.blobs id uid,
                     products := st.products.filter (fun q => !(q.id == id)) },
           Except.ok ()) := by
      unfold remove findOne
      rw [hp]
      simp only [if_neg hne]
      rw [hu]
    rw [hred]
    refine ⟨rfl, findProduct_filter_out _ id, ?_, fun _ => rfl⟩
    intro e he
    exact Except.noConfusion he
  | error e0 =>
    have hred : remove st id uid (Except.error e0)
        = ({ st with products := st.products.filter (fun q => !(q.id == id)) },
           Except.ok ()) := by
      unfold remove findOne
      rw [hp]
      simp only [if_neg hne]
      rw [hu]
    rw [hred]
    refine ⟨rfl, findProduct_filter_out _ id, fun _ _ => rfl, ?_⟩
    intro he
    exact Except.noConfusion he

/-- C9: `deleteImage` by the owner fails with `BadRequest` and leaves the
state unchanged when the row has no image URL; otherwise (on a successful
blob call) it removes every stored key under the product+owner folder and
clears the row's image URL to `null`. -/
theorem deleteImage_requires_image_then_clears
    (st : State) (id uid : String) (p : Product) (blob : Except String Unit)
    (hp : findProduct st.products id = some p) (hown : p.userId = uid) :
    (p.imageUrl = none →
      deleteImage st id uid blob
        = (st, Except.error (ApiError.badRequest "Product has no image to delete"))) ∧
    ((truthy p.imageUrl).isSome = true →
      (deleteImage st id uid (Except.ok ())).2 = Except.ok "Image deleted successfully" ∧
      (deleteImage st id uid (Except.ok ())).1.blobs
        = deleteProductImages st.blobs id uid ∧
      (∀ k ∈ (deleteImage st id uid (Except.ok ())).1.blobs,
        String.isPrefixOf (imageFolder id uid) k = false) ∧
      findProduct (deleteImage st id uid (Except.ok ())).1.products id
        = some { p with imageUrl := none }) := by
  have hne : ¬ p.userId ≠ uid := by simp [hown]
  constructor
  · intro hnone
    unfold deleteImage findOne
    rw [hp]
    simp only [if_neg hne]
    rw [hnone]
    rfl
  · intro himg
    obtain ⟨u, hu⟩ := Option.isSome_iff_exists.mp himg
    unfold deleteImage findOne
    rw [hp]
    simp only [if_neg hne]
    rw [hu]
    refine ⟨rfl, rfl, ?_, ?_⟩
    · intro k hk
      rcases List.mem_filter.mp hk with ⟨-, hkeep⟩
      simpa using hkeep
    · rw [findProduct_setProductImage, hp]
      rfl

/-- C10: every mutating operation checks product existence first and
ownership second: a nonexistent product id yields `NotFound` from all four
operations (never `Forbidden`), and a non-owner always gets `Forbidden`
regardless of any other invalid input — for update this holds for every
dto (including one whose category does not resolve, which would otherwise
be category-`NotFound`), and for deleteImage for every product (including
an image-less one, which would otherwise be `BadRequest`). -/
theorem mutation_check_order
    (st : State) (id uid : String) (dto : UpdateProductDto)
    (upl : Except String String) (blob : Except String Unit) :
    (findProduct st.products id = none →
      isNotFound (update st id dto uid).2 = true ∧
      isNotFound (remove st id uid blob).2 = true ∧
      isNotFound (uploadImage st id uid upl).2 = true ∧
      isNotFound (deleteImage st id uid blob).2 = true) ∧
    (∀ p : Product, findProduct st.products id = some p → p.userId ≠ uid →
      isForbidden (update st id dto uid).2 = true ∧
      isForbidden (remove st id uid blob).2 = true ∧
      isForbidden (uploadImage st id uid upl).2 = true ∧
      isForbidden (deleteImage st id uid blob).2 = true) := by
  constructor
  · intro h
    refine ⟨?_, ?_, ?_, ?_⟩ <;>
      simp [update, remove, uploadImage, deleteImage, findOne, h, isNotFound]
  · intro p hp hne
    refine ⟨?_, ?_, ?_, ?_⟩ <;>
      simp [update, remove, uploadImage, deleteImage, findOne, hp, hne, isForbidden]

/-! Witnesses: each claim theorem with hypotheses applied at concrete
inputs, all hypotheses discharged by computation. -/

/-- Witness for C1: both upload outcomes at a concrete store. -/
theorem create_file_precedence_witness :
    (∃ res,
      (create stA dtoPhone (some ()) "alice" "p9" 11
          (Except.ok "https://blob/p9/alice/new.png")).2 = Except.ok res ∧
        res.product.imageUrl = some "https://blob/p9/alice/new.png" ∧
        res.imageUrl = some "https://blob/p9/alice/new.png" ∧
        findProduct (create stA dtoPhone (some ()) "alice" "p9" 11
            (Except.ok "https://blob/p9/alice/new.png")).1.products "p9"
          = some res.product) ∧
    (∃ res,
      (create stA dtoPhone (some ()) "alice" "p9" 11
          (Except.error "boom")).2 = Except.ok res ∧
        res.product.imageUrl = some "https://literal/url.png" ∧
        res.message = "Product created successfully, but image upload failed" ∧
        findProduct (create stA dtoPhone (some ()) "alice" "p9" 11
            (Except.error "boom")).1.products "p9" = some res.product) :=
  ⟨(create_file_precedence_and_failure_isolation stA dtoPhone "alice" "p9" 11
      (Except.ok "https://blob/p9/alice/new.png") "https://literal/url.png"
      (by decide) rfl (by decide)).1 "https://blob/p9/alice/new.png" rfl,
   (create_file_precedence_and_failure_isolation stA dtoPhone "alice" "p9" 11
      (Except.error "boom") "https://literal/url.png"
      (by decide) rfl (by decide)).2 "boom" rfl⟩

/-- Witness for C2: creation against a missing category in a concrete
store with two categories. -/
theorem create_missing_category_witness :
    create stA dtoBad none "alice" "p9" 11 (Except.ok "u")
      = (stA, Except.error (ApiError.notFound
          (categoryNotFoundMessage stA.categories dtoBad.categoryId))) ∧
    (stA.categories = [] →
      categoryNotFoundMessage stA.categories dtoBad.categoryId =
        "Category with ID " ++ dtoBad.categoryId ++
          " not found. No categories exist yet. Please create a category first using POST /api/categories before creating products.") ∧
    (stA.categories ≠ [] →
      categoryNotFoundMessage stA.categories dtoBad.categoryId =
        "Category with ID " ++ dtoBad.categoryId ++ " not found. Available categories: " ++
          categoryListString (availableCategories stA.categories) ++
          ". Please create a category first using POST /api/categories before creating products.") ∧
    List.Sorted catNameLe (availableCategories stA.categories) ∧
    (availableCategories stA.categories).Perm stA.categories :=
  create_missing_category_error_message stA dtoBad none "alice" "p9" 11
    (Except.ok "u") (by decide)

/-- Witness for C3: defaulted and explicitly supplied valid pagination. -/
theorem findAll_pagination_witness :
    (1 ≤ (findAll stA emptyQuery).page ∧
     1 ≤ (findAll stA emptyQuery).limit ∧ (findAll stA emptyQuery).limit ≤ 100 ∧
     (emptyQuery.page = none → (findAll stA emptyQuery).page = 1) ∧
     (emptyQuery.limit = none → (findAll stA emptyQuery).limit = 10)) ∧
    (1 ≤ (findAll stA { emptyQuery with page := some 3, limit := some 50 }).page ∧
     1 ≤ (findAll stA { emptyQuery with page := some 3, limit := some 50 }).limit ∧
     (findAll stA { emptyQuery with page := some 3, limit := some 50 }).limit ≤ 100 ∧
     (({ emptyQuery with page := some 3, limit := some 50 } : ProductQueryDto).page = none →
       (findAll stA { emptyQuery with page := some 3, limit := some 50 }).page = 1) ∧
     (({ emptyQuery with page := some 3, limit := some 50 } : ProductQueryDto).limit = none →
       (findAll stA { emptyQuery with page := some 3, limit := some 50 }).limit = 10)) :=
  ⟨findAll_pagination_defaults_and_bounds stA emptyQuery (by decide),
   findAll_pagination_defaults_and_bounds stA
     { emptyQuery with page := some 3, limit := some 50 } (by decide)⟩

/-- Witness for C4: a non-owner (`bob`) against `alice`'s product. -/
theorem nonowner_forbidden_witness :
    update stA "p1" emptyUpdate "bob"
      = (stA, Except.error (ApiError.forbidden "You can only update your own products")) ∧
    remove stA "p1" "bob" (Except.ok ())
      = (stA, Except.error (ApiError.forbidden "You can only delete your own products")) ∧
    uploadImage stA "p1" "bob" (Except.ok "u")
      = (stA, Except.error (ApiError.forbidden "You can only upload images to your own products")) ∧
    deleteImage stA "p1" "bob" (Except.ok ())
      = (stA, Except.error (ApiError.forbidden "You can only delete images from your own products")) :=
  nonowner_mutations_forbidden_and_unmodified stA "p1" "bob" emptyUpdate
    (Except.ok "u") (Except.ok ()) phone (by decide) (by decide)

/-- Witness for C5: bounds around a concrete price and an inverted range. -/
theorem price_bounds_witness :
    (priceFilter (some 100) (some 300) 200 = true ↔
      (∀ m, (some (100 : Rat)) = some m → m ≤ 200) ∧
      (∀ m, (some (300 : Rat)) = some m → (200 : Rat) ≤ m)) ∧
    (∀ m mx : Rat, m ≤ mx →
      priceFilter (some m) (some mx) m = true ∧
      priceFilter (some m) (some mx) mx = true) ∧
    (∀ m mx : Rat,
      ({ emptyQuery with minPrice := some 300, maxPrice := some 100 } : ProductQueryDto).minPrice = some m →
      ({ emptyQuery with minPrice := some 300, maxPrice := some 100 } : ProductQueryDto).maxPrice = some mx →
      mx < m →
      (findAll stA { emptyQuery with minPrice := some 300, maxPrice := some 100 }).products = [] ∧
      (findAll stA { emptyQuery with minPrice := some 300, maxPrice := some 100 }).total = 0) :=
  price_bounds_inclusive_and_inverted_range_empty stA
    { emptyQuery with minPrice := some 300, maxPrice := some 100 }
    (some 100) (some 300) 200

/-- Witness for C6: pagination arithmetic of a concrete query. -/
theorem findAll_totalPages_witness :
    (findAll stA emptyQuery).total
      = (stA.products.filter (whereMatches emptyQuery)).length ∧
    (findAll stA emptyQuery).totalPages
      = ⌈((findAll stA emptyQuery).total : Rat) / ((findAll stA emptyQuery).limit : Rat)⌉ ∧
    (findAll stA emptyQuery).totalPages
      = (((findAll stA emptyQuery).total + (findAll stA emptyQuery).limit.toNat - 1)
          / (findAll stA emptyQuery).limit.toNat : Nat) ∧
    (findAll stA emptyQuery).products.length ≤ (findAll stA emptyQuery).limit.toNat :=
  findAll_totalPages_and_page_size stA emptyQuery (by decide)

/-- Witness for C7: a non-empty term is applied case-insensitively. -/
theorem text_filter_witness :
    searchFilter (some "HON") phone = true :=
  (text_filter_truthiness_and_ci_substring.2.1 "HON" phone (by decide)).mpr
    (Or.inl (show lowerChars "HON" <:+: lowerChars "Phone" by decide))

/-- Witness for C8: blob cleanup failure during removal of `camera`. -/
theorem remove_swallow_witness :
    (remove stA "p2" "alice" (Except.error "down")).2 = Except.ok () ∧
    findProduct (remove stA "p2" "alice" (Except.error "down")).1.products "p2" = none ∧
    (∀ e, (Except.error "down" : Except String Unit) = Except.error e →
      (remove stA "p2" "alice" (Except.error "down")).1.blobs = stA.blobs) ∧
    ((Except.error "down" : Except String Unit) = Except.ok () →
      (remove stA "p2" "alice" (Except.error "down")).1.blobs
        = deleteProductImages stA.blobs "p2" "alice") :=
  remove_swallows_blob_failure stA "p2" "alice" camera (Except.error "down")
    (by decide) rfl (by decide)

/-- Witness for C9: image deletion on `camera`, which has an image. -/
theorem deleteImage_witness :
    (camera.imageUrl = none →
      deleteImage stA "p2" "alice" (Except.ok ())
        = (stA, Except.error (ApiError.badRequest "Product has no image to delete"))) ∧
    ((truthy camera.imageUrl).isSome = true →
      (deleteImage stA "p2" "alice" (Except.ok ())).2
        = Except.ok "Image deleted successfully" ∧
      (deleteImage stA "p2" "alice" (Except.ok ())).1.blobs
        = deleteProductImages stA.blobs "p2" "alice" ∧
      (∀ k ∈ (deleteImage stA "p2" "alice" (Except.ok ())).1.blobs,
        String.isPrefixOf (imageFolder "p2" "alice") k = false) ∧
      findProduct (deleteImage stA "p2" "alice" (Except.ok ())).1.products "p2"
        = some { camera with imageUrl := none }) :=
  deleteImage_requires_image_then_clears stA "p2" "alice" camera (Except.ok ())
    (by decide) rfl

/-- Witness for C10: a missing id yields `NotFound` everywhere, and a
non-owner gets `Forbidden` even with a bad category id in the dto and on a
product with no image. -/
theorem mutation_check_order_witness :
    (isNotFound (update stA "zz" emptyUpdate "alice").2 = true ∧
     isNotFound (remove stA "zz" "alice" (Except.ok ())).2 = true ∧
     isNotFound (uploadImage stA "zz" "alice" (Except.ok "u")).2 = true ∧
     isNotFound (deleteImage stA "zz" "alice" (Except.ok ())).2 = true) ∧
    (isForbidden (update stA "p1" { emptyUpdate with categoryId := some "nope" } "bob").2 = true ∧
     isForbidden (remove stA "p1" "bob" (Except.ok ())).2 = true ∧
     isForbidden (uploadImage stA "p1" "bob" (Except.ok "u")).2 = true ∧
     isForbidden (deleteImage stA "p1" "bob" (Except.ok ())).2 = true) :=
  ⟨(mutation_check_order stA "zz" "alice" emptyUpdate
      (Except.ok "u") (Except.ok ())).1 (by decide),
   (mutation_check_order stA "p1" "bob" { emptyUpdate with categoryId := some "nope" }
      (Except.ok "u") (Except.ok ())).2 phone (by decide) (by decide)⟩

end Inventory
